import Mathlib

/-!
Verification of the upstream access-control core of the personio-mcp server.

The definitions below are a shallow embedding of the TypeScript source:
JavaScript runtime values are modelled by `JSVal`, property access by
`getField` (which, as in JavaScript, raises a TypeError on `null` and
`undefined` receivers and yields `undefined` on primitives), and the
error-normalization, caching, credential and throttling components are
translated function by function from the repository source.
-/

namespace Personio

/-- JavaScript runtime values as used by the error-handling and caching code:
null, undefined, booleans, (integer-valued) numbers, strings, arrays, and
objects carrying their constructor name and an ordered field list. -/
inductive JSVal : Type where
  | null : JSVal
  | undefined : JSVal
  | bool : Bool → JSVal
  | num : Int → JSVal
  | str : String → JSVal
  | arr : List JSVal → JSVal
  | obj : String → List (String × JSVal) → JSVal

/-- A JavaScript TypeError raised when reading a property of null or
undefined; carries the property name that was read. -/
inductive JSErr : Type where
  | typeError : String → JSErr
deriving DecidableEq, Repr

/-- Field lookup in an object field list; absent fields read as undefined. -/
def lookupField (fields : List (String × JSVal)) (k : String) : JSVal :=
  match fields.lookup k with
  | some v => v
  | none => .undefined

/-- Property read `v[k]`: raises a TypeError on null and undefined, yields the
field (or undefined) on objects, and undefined on boxed primitives. -/
def getField : JSVal → String → Except JSErr JSVal
  | .null, k => .error (.typeError k)
  | .undefined, k => .error (.typeError k)
  | .obj _ fs, k => .ok (lookupField fs k)
  | _, _ => .ok .undefined

/-- Optional-chaining read `v?.k`: nullish receivers give undefined instead of
raising. -/
def optField (v : JSVal) (k : String) : JSVal :=
  match v with
  | .null => .undefined
  | .undefined => .undefined
  | .obj _ fs => lookupField fs k
  | _ => .undefined

/-- JavaScript truthiness. -/
def truthy : JSVal → Bool
  | .null => false
  | .undefined => false
  | .bool b => b
  | .num n => n != 0
  | .str s => s != ""
  | .arr _ => true
  | .obj _ _ => true

/-- String interpolation of a value, as in a template literal. -/
def jsToString : JSVal → String
  | .null => "null"
  | .undefined => "undefined"
  | .bool true => "true"
  | .bool false => "false"
  | .num n => toString n
  | .str s => s
  | .arr xs => String.intercalate "," (xs.map (fun _ => ""))
  | .obj _ _ => "[object Object]"

/-- The `error instanceof PersonioMCPError` test from src/utils/errors.ts;
`PersonioMCPError` has no subclasses in the repository, so the test is a
constructor-name check. -/
def isPersonioMCPError : JSVal → Bool
  | .obj c _ => c = "PersonioMCPError"
  | _ => false

/-- The descriptor shape returned by formatError: `{ code, message, details? }`.
The field values are JavaScript values copied from the input, so they are not
forced to be strings. -/
structure ErrorDescriptor where
  code : JSVal
  message : JSVal
  details : Option JSVal

/-- Shallow embedding of `formatError` (src/utils/errors.ts): pass through a
tagged `PersonioMCPError`; otherwise map an error carrying a response to
`HTTP_<status>` with message `error.response.data?.message || error.message`;
otherwise pass through a truthy `error.code`; otherwise `UNKNOWN_ERROR`. -/
def formatError (error : JSVal) : Except JSErr ErrorDescriptor := do
  if isPersonioMCPError error then
    let c ← getField error "code"
    let m ← getField error "message"
    let d ← getField error "details"
    return ⟨c, m, some d⟩
  else
    let resp ← getField error "response"
    if truthy resp then
      let status ← getField resp "status"
      let data ← getField resp "data"
      let emsg ← getField error "message"
      let dm := optField data "message"
      return ⟨.str ("HTTP_" ++ jsToString status),
              if truthy dm then dm else emsg,
              some data⟩
    else
      let c ← getField error "code"
      if truthy c then
        let m ← getField error "message"
        return ⟨c, m, none⟩
      else
        let m ← getField error "message"
        return ⟨.str "UNKNOWN_ERROR",
                if truthy m then m else .str "An unknown error occurred",
                none⟩

/-- A `PersonioApiError` instance (src/api/client.ts): fields are `statusCode`,
`message` (set by the Error super constructor), `errorCode` and `name`; it has
no `code` and no `response` field. -/
def mkPersonioApiError (statusCode message errorCode : JSVal) : JSVal :=
  .obj "PersonioApiError"
    [("statusCode", statusCode), ("message", message),
     ("errorCode", errorCode), ("name", .str "PersonioApiError")]

/-- Shallow embedding of `PersonioClient.handleError` (src/api/client.ts), the
axios response interceptor: an error with a response is rethrown as a
`PersonioApiError` with the status and the `error.message` of the body and
`error.code`; a request with no response becomes `NETWORK_ERROR`; anything else
becomes `REQUEST_ERROR`. The thrown error value is returned. -/
def handleError (error : JSVal) : Except JSErr JSVal := do
  let resp ← getField error "response"
  if truthy resp then
    let status ← getField resp "status"
    let data ← getField resp "data"
    let em := optField (optField data "error") "message"
    let ec := optField (optField data "error") "code"
    return mkPersonioApiError status (if truthy em then em else .str "Unknown error") ec
  else
    let req ← getField error "request"
    if truthy req then
      return mkPersonioApiError (.num 0) (.str "Network error occurred") (.str "NETWORK_ERROR")
    else
      let m ← getField error "message"
      return mkPersonioApiError (.num 0) m (.str "REQUEST_ERROR")

/-- Escape of one character inside a JSON string literal, as JSON.stringify
performs it for the characters that can occur in this code base. -/
def escapeJSONChar (c : Char) : String :=
  if c = '"' then "\\\""
  else if c = '\\' then "\\\\"
  else if c = '\n' then "\\n"
  else if c = '\t' then "\\t"
  else if c = '\r' then "\\r"
  else String.singleton c

/-- Escape of a full string for a JSON string literal. -/
def escapeJSON (s : String) : String := String.join (s.data.map escapeJSONChar)

mutual

/-- JSON.stringify for the modelled values. Field order of objects is
preserved (JSON.stringify serializes fields in insertion order) and fields
holding undefined are dropped; undefined inside an array serializes as null. -/
def jsonStringify : JSVal → String
  | .null => "null"
  | .undefined => "null"
  | .bool true => "true"
  | .bool false => "false"
  | .num n => toString n
  | .str s => "\"" ++ escapeJSON s ++ "\""
  | .arr xs => "[" ++ String.intercalate "," (stringifyElems xs) ++ "]"
  | .obj _ fs => "\x7b" ++ String.intercalate "," (stringifyFields fs) ++ "\x7d"

/-- Serialized array elements, in order. -/
def stringifyElems : List JSVal → List String
  | [] => []
  | v :: rest => jsonStringify v :: stringifyElems rest

/-- Serialized object fields, in insertion order, dropping undefined values. -/
def stringifyFields : List (String × JSVal) → List String
  | [] => []
  | (_, .undefined) :: rest => stringifyFields rest
  | (k, v) :: rest =>
      ("\"" ++ escapeJSON k ++ "\":" ++ jsonStringify v) :: stringifyFields rest

end

/-- The `params || {}` defaulting applied by the key generators. -/
def orEmptyObject (params : JSVal) : JSVal :=
  if truthy params then params else .obj "Object" []

/-- CacheManager.getEmployeesKey (src/utils/cache.ts): the literal
employees: followed by JSON.stringify of the parameters (or of {}). -/
def getEmployeesKey (params : JSVal) : String :=
  "employees:" ++ jsonStringify (orEmptyObject params)

/-- CacheManager.getEmployeeKey (src/utils/cache.ts). -/
def getEmployeeKey (id : Int) : String := "employee:" ++ toString id

/-- CacheManager.getAbsencesKey (src/utils/cache.ts): the literal absences:
followed by JSON.stringify of the parameters (or of {}). -/
def getAbsencesKey (params : JSVal) : String :=
  "absences:" ++ jsonStringify (orEmptyObject params)

/-- CacheManager.getOrganizationKey (src/utils/cache.ts). -/
def getOrganizationKey : String := "organization:structure"

/-- CacheManager.getPoliciesKey (src/utils/cache.ts). -/
def getPoliciesKey : String := "policies:absence-types"

/-- A zod validation failure. -/
inductive ZodError where
  | invalid : String → ZodError
deriving DecidableEq, Repr

/-- z.string().optional(): absent reads as none, a string passes, anything
else is rejected. -/
def parseOptionalString (v : JSVal) : Except ZodError (Option String) :=
  match v with
  | .undefined => .ok none
  | .str s => .ok (some s)
  | _ => .error (.invalid "Expected string")

/-- Element-wise number validation of an array body. -/
def parseNumbers : List JSVal → Except ZodError (List Int)
  | [] => .ok []
  | .num n :: rest => (parseNumbers rest).map (fun l => n :: l)
  | _ :: _ => .error (.invalid "Expected number")

/-- z.array(z.number()).optional(). -/
def parseOptionalNumberArray (v : JSVal) : Except ZodError (Option (List Int)) :=
  match v with
  | .undefined => .ok none
  | .arr xs => (parseNumbers xs).map some
  | _ => .error (.invalid "Expected array")

/-- The status enum of listAbsencesSchema. -/
def absenceStatuses : List String := ["approved", "pending", "rejected", "canceled"]

/-- z.enum([approved, pending, rejected, canceled]).optional(). -/
def parseOptionalStatus (v : JSVal) : Except ZodError (Option String) :=
  match v with
  | .undefined => .ok none
  | .str s =>
      if s ∈ absenceStatuses then .ok (some s)
      else .error (.invalid "Invalid enum value")
  | _ => .error (.invalid "Expected string")

/-- z.number().min(1).max(50).optional().default(50). -/
def parseLimit (v : JSVal) : Except ZodError Int :=
  match v with
  | .undefined => .ok 50
  | .num n => if 1 ≤ n ∧ n ≤ 50 then .ok n else .error (.invalid "limit out of range")
  | _ => .error (.invalid "Expected number")

/-- z.number().min(0).optional().default(0). -/
def parseOffset (v : JSVal) : Except ZodError Int :=
  match v with
  | .undefined => .ok 0
  | .num n => if 0 ≤ n then .ok n else .error (.invalid "offset out of range")
  | _ => .error (.invalid "Expected number")

/-- The validated parameters of list_absences. -/
structure AbsenceParams where
  start_date : Option String
  end_date : Option String
  employee_ids : Option (List Int)
  status : Option String
  limit : Int
  offset : Int
deriving DecidableEq, Repr

/-- A field that an object carries only when the value is present. -/
def optionalField (k : String) : Option JSVal → List (String × JSVal)
  | none => []
  | some v => [(k, v)]

/-- The zod-parsed parameters as the JavaScript object the parse returns:
fields in schema declaration order, absent optional fields omitted (an
explicitly-undefined field stringifies identically to an omitted one). -/
def absenceParamsToJS (p : AbsenceParams) : JSVal :=
  .obj "Object"
    (optionalField "start_date" (p.start_date.map .str)
     ++ optionalField "end_date" (p.end_date.map .str)
     ++ optionalField "employee_ids" (p.employee_ids.map (fun l => .arr (l.map .num)))
     ++ optionalField "status" (p.status.map .str)
     ++ [("limit", .num p.limit), ("offset", .num p.offset)])

/-- Shallow embedding of listAbsencesSchema.parse (src/tools/absences.ts
lines 8-15): each schema field is read from the argument object by name and
validated; limit defaults to 50 and offset to 0; a non-object argument is
rejected. -/
def parseListAbsences (args : JSVal) : Except ZodError AbsenceParams :=
  match args with
  | .obj _ fs => do
      let sd ← parseOptionalString (lookupField fs "start_date")
      let ed ← parseOptionalString (lookupField fs "end_date")
      let ids ← parseOptionalNumberArray (lookupField fs "employee_ids")
      let st ← parseOptionalStatus (lookupField fs "status")
      let lim ← parseLimit (lookupField fs "limit")
      let off ← parseOffset (lookupField fs "offset")
      .ok ⟨sd, ed, ids, st, lim, off⟩
  | _ => .error (.invalid "Expected object")

/-- The validated parameters of create_absence_request. -/
structure CreateAbsenceParams where
  employee_id : Int
  time_off_type_id : Int
  start_date : String
  end_date : String
  half_day_start : Bool
  half_day_end : Bool
  comment : Option String
deriving DecidableEq, Repr

/-- z.number(). -/
def parseNumber (v : JSVal) : Except ZodError Int :=
  match v with
  | .num n => .ok n
  | _ => .error (.invalid "Expected number")

/-- z.string(). -/
def parseString (v : JSVal) : Except ZodError String :=
  match v with
  | .str s => .ok s
  | _ => .error (.invalid "Expected string")

/-- z.boolean().optional().default(false). -/
def parseBoolDefaultFalse (v : JSVal) : Except ZodError Bool :=
  match v with
  | .undefined => .ok false
  | .bool b => .ok b
  | _ => .error (.invalid "Expected boolean")

/-- Shallow embedding of createAbsenceSchema.parse (src/tools/absences.ts
lines 17-25). -/
def parseCreateAbsence (args : JSVal) : Except ZodError CreateAbsenceParams :=
  match args with
  | .obj _ fs => do
      let eid ← parseNumber (lookupField fs "employee_id")
      let tid ← parseNumber (lookupField fs "time_off_type_id")
      let sd ← parseString (lookupField fs "start_date")
      let ed ← parseString (lookupField fs "end_date")
      let hs ← parseBoolDefaultFalse (lookupField fs "half_day_start")
      let he ← parseBoolDefaultFalse (lookupField fs "half_day_end")
      let cm ← parseOptionalString (lookupField fs "comment")
      .ok ⟨eid, tid, sd, ed, hs, he, cm⟩
  | _ => .error (.invalid "Expected object")

/-- The validated parameters of list_employees. -/
structure EmployeeParams where
  limit : Int
  offset : Int
  attributes : Option (List String)
  updated_since : Option String
deriving DecidableEq, Repr

/-- Element-wise string validation of an array body. -/
def parseStrings : List JSVal → Except ZodError (List String)
  | [] => .ok []
  | .str s :: rest => (parseStrings rest).map (fun l => s :: l)
  | _ :: _ => .error (.invalid "Expected string")

/-- z.array(z.string()).optional(). -/
def parseOptionalStringArray (v : JSVal) : Except ZodError (Option (List String)) :=
  match v with
  | .undefined => .ok none
  | .arr xs => (parseStrings xs).map some
  | _ => .error (.invalid "Expected array")

/-- The zod-parsed list_employees parameters as the JavaScript object the
parse returns: fields in schema declaration order, absent optional fields
omitted. -/
def employeeParamsToJS (p : EmployeeParams) : JSVal :=
  .obj "Object"
    ([("limit", .num p.limit), ("offset", .num p.offset)]
     ++ optionalField "attributes"
          (p.attributes.map (fun l => .arr (l.map .str)))
     ++ optionalField "updated_since" (p.updated_since.map .str))

/-- Shallow embedding of listEmployeesSchema.parse (src/tools/employees.ts
lines 8-13): limit (1 to 50, default 50), offset (at least 0, default 0), an
optional string array of attributes, and an optional updated_since string,
each read from the argument object by name; a non-object argument is
rejected. listEmployees derives its cache key from this parse result
(src/tools/employees.ts lines 169-170), just as listAbsences does. -/
def parseListEmployees (args : JSVal) : Except ZodError EmployeeParams :=
  match args with
  | .obj _ fs => do
      let lim ← parseLimit (lookupField fs "limit")
      let off ← parseOffset (lookupField fs "offset")
      let attrs ← parseOptionalStringArray (lookupField fs "attributes")
      let us ← parseOptionalString (lookupField fs "updated_since")
      .ok ⟨lim, off, attrs, us⟩
  | _ => .error (.invalid "Expected object")

/-- Per-namespace default TTL configuration (src/utils/cache.ts constructor):
a falsy configured value falls back to 300, 3600 and 86400 seconds. -/
structure CacheConfig where
  employeesTTL : Int
  organizationTTL : Int
  policiesTTL : Int
deriving DecidableEq, Repr

/-- The `config?.x || default` defaulting of the CacheManager constructor. -/
def orDefault (v : Option Int) (dflt : Int) : Int :=
  match v with
  | some n => if n = 0 then dflt else n
  | none => dflt

/-- The CacheManager constructor configuration. -/
def mkCacheConfig (e o p : Option Int) : CacheConfig :=
  ⟨orDefault e 300, orDefault o 3600, orDefault p 86400⟩

/-- Substring test, as String.prototype.includes. -/
def strContains (s pat : String) : Bool :=
  (List.range (s.length + 1)).any
    (fun i => (s.toList.drop i).take pat.length == pat.toList)

/-- CacheManager.getDefaultTTL (src/utils/cache.ts lines 47-52): keys
containing an employees, organization or policies marker get the namespace
default; anything else 300 seconds. -/
def getDefaultTTL (cfg : CacheConfig) (key : String) : Int :=
  if strContains key "employees" then cfg.employeesTTL
  else if strContains key "organization" then cfg.organizationTTL
  else if strContains key "policies" then cfg.policiesTTL
  else 300

/-- One stored cache entry: key, value, and absolute expiry in milliseconds. -/
structure CacheEntry where
  key : String
  value : JSVal
  expiresAt : Int

/-- The TTL-keyed store backing CacheManager. -/
abbrev Cache := List CacheEntry

/-- Deletion of a key (node-cache del): removes the entries with that key. -/
def cacheDelete (c : Cache) (k : String) : Cache :=
  c.filter (fun e => e.key != k)

/-- Raw write at time now (ms) with a ttl in seconds, replacing the key. -/
def cacheSetRaw (c : Cache) (k : String) (v : JSVal) (ttl now : Int) : Cache :=
  ⟨k, v, now + ttl * 1000⟩ :: cacheDelete c k

/-- CacheManager.set (src/utils/cache.ts lines 27-29): a truthy explicit ttl
wins; an omitted or falsy ttl falls back to the namespace default. -/
def cacheSet (cfg : CacheConfig) (c : Cache) (k : String) (v : JSVal)
    (ttl : Option Int) (now : Int) : Cache :=
  cacheSetRaw c k v
    (match ttl with
     | some t => if t = 0 then getDefaultTTL cfg k else t
     | none => getDefaultTTL cfg k) now

/-- CacheManager.get at time now: a present, unexpired entry yields its value;
expired or absent keys read as undefined (modelled as none; the lazy eviction
node-cache performs on an expired read is unobservable through get or has). -/
def cacheGet (c : Cache) (k : String) (now : Int) : Option JSVal :=
  match c.find? (fun e => e.key == k) with
  | some e => if now < e.expiresAt then some e.value else none
  | none => none

/-- Shallow embedding of transformAbsence (src/tools/absences.ts lines
252-280): reshapes an upstream absence record for display. Field reads are
modelled with optional-chaining (total) semantics; the spec scopes display
reshaping out of the core and no claim depends on the reshaped fields. -/
def transformAbsence (a : JSVal) : JSVal :=
  .obj "Object"
    [("id", optField a "id"),
     ("status", optField a "status"),
     ("employee", .obj "Object"
       [("id", optField (optField a "employee") "id"),
        ("name", .str (jsToString (optField (optField a "employee") "first_name")
                       ++ " "
                       ++ jsToString (optField (optField a "employee") "last_name"))),
        ("email", optField (optField a "employee") "email")]),
     ("dates", .obj "Object"
       [("start", optField a "start_date"),
        ("end", optField a "end_date"),
        ("half_day_start", optField a "half_day_start"),
        ("half_day_end", optField a "half_day_end")]),
     ("duration", .obj "Object"
       [("days", optField a "days_count"),
        ("is_half_day",
         if truthy (optField a "half_day_start") then optField a "half_day_start"
         else optField a "half_day_end")]),
     ("type", .obj "Object"
       [("id", optField (optField a "time_off_type") "id"),
        ("name", optField (optField a "time_off_type") "name"),
        ("category", optField (optField a "time_off_type") "category")]),
     ("comment", optField a "comment"),
     ("created_at", optField a "created_at"),
     ("updated_at", optField a "updated_at")]

/-- A failure surfaced by a tool call: a validation rejection or an upstream
(API or transport) error rethrown by the rate-limited call. -/
inductive ToolError where
  | validation : ZodError → ToolError
  | upstream : JSVal → ToolError

/-- Shallow embedding of listAbsences (src/tools/absences.ts lines 159-195):
validate, derive the cache key from the parsed parameters, return a truthy
cached value unchanged, otherwise run the upstream fetch through the rate
limiter (its outcome is a given here), transform, and write the result back
with ttl 60 only when no status filter is present. Returns the outcome
together with the cache as it stands after the call. -/
def listAbsences (cfg : CacheConfig) (args : JSVal)
    (outcome : Except JSVal (List JSVal)) (c : Cache) (now : Int) :
    Except ToolError JSVal × Cache :=
  match parseListAbsences args with
  | .error z => (.error (.validation z), c)
  | .ok params =>
    let cacheKey := getAbsencesKey (absenceParamsToJS params)
    let cached := (cacheGet c cacheKey now).getD .undefined
    if truthy cached then (.ok cached, c)
    else
      match outcome with
      | .error e => (.error (.upstream e), c)
      | .ok fetched =>
        let result : JSVal := .obj "Object"
          [("absences", .arr (fetched.map transformAbsence)),
           ("total", .num (fetched.length : Int)),
           ("limit", .num params.limit),
           ("offset", .num params.offset)]
        if params.status = none then
          (.ok result, cacheSet cfg c cacheKey result (some 60) now)
        else (.ok result, c)

/-- Shallow embedding of createAbsence (src/tools/absences.ts lines 197-213):
validate, run the upstream create through the rate limiter (its outcome is a
given here); on success delete the unparameterized absences list key from the
cache and return the success payload; a validation or upstream failure
propagates before the delete runs. -/
def createAbsence (args : JSVal) (outcome : Except JSVal JSVal) (c : Cache) :
    Except ToolError JSVal × Cache :=
  match parseCreateAbsence args with
  | .error z => (.error (.validation z), c)
  | .ok _ =>
    match outcome with
    | .error e => (.error (.upstream e), c)
    | .ok absence =>
      (.ok (.obj "Object"
             [("success", .bool true),
              ("absence", transformAbsence absence),
              ("message", .str "Absence request created successfully")]),
       cacheDelete c (getAbsencesKey .undefined))

/-- JavaScript truthiness of an optional string field: absent or empty reads
as falsy. -/
def strOptTruthy : Option String → Bool
  | some s => s != ""
  | none => false

/-- The mutable credential state of PersonioAuth (src/api/auth.ts): the cached
access token and its local expiry instant in milliseconds. -/
structure AuthState where
  accessToken : Option String
  tokenExpiry : Option Int
deriving DecidableEq, Repr

/-- The PersonioAuth constructor configuration. -/
structure AuthConfig where
  clientId : Option String
  clientSecret : Option String
  apiKey : Option String
deriving DecidableEq, Repr

/-- The body served by the authorization endpoint on a 2xx grant response
({success, data: {token, expires_in}}, flattened). -/
structure TokenResponse where
  success : Bool
  token : Option String
  expires_in : Int
deriving DecidableEq, Repr

/-- Outcome of the upstream grant request: a 2xx response body, or a thrown
axios error value. -/
inductive GrantOutcome where
  | response : TokenResponse → GrantOutcome
  | failure : JSVal → GrantOutcome

/-- The validity check on line 45 of src/api/auth.ts: a truthy stored token, a
stored expiry, and the expiry still in the future. -/
def tokenValid (st : AuthState) (now : Int) : Bool :=
  strOptTruthy st.accessToken &&
    (match st.tokenExpiry with
     | some exp => decide (now < exp)
     | none => false)

/-- The catch branch of getAccessToken (src/api/auth.ts lines 79-84): an error
carrying a response is reported as a failed authentication with the message of
the body (or the error message); anything else as an authentication error. -/
def authCatchMessage (e : JSVal) : String :=
  if truthy (optField e "response") then
    "Authentication failed: " ++
      jsToString
        (let dm := optField (optField (optField (optField e "response") "data")
                     "error") "message"
         if truthy dm then dm else optField e "message")
  else
    "Authentication error: " ++ jsToString (optField e "message")

/-- The token-request branch of getAccessToken (src/api/auth.ts lines 49-84):
missing client credentials are rejected before any network call; a grant
response without success or without a truthy token is rejected (the internal
throw is caught by the same catch and reported as an authentication error);
a served token is stored with expiry now + (expires_in - 300) seconds.
Returns (outcome, state after, whether a grant request was issued). -/
def requestNewToken (cfg : AuthConfig) (st : AuthState) (now : Int)
    (net : GrantOutcome) : Except String String × AuthState × Bool :=
  if strOptTruthy cfg.clientId && strOptTruthy cfg.clientSecret then
    match net with
    | .response r =>
        if r.success && strOptTruthy r.token then
          let tok := r.token.getD ""
          (.ok tok, ⟨some tok, some (now + (r.expires_in - 300) * 1000)⟩, true)
        else
          (.error "Authentication error: Failed to obtain access token", st, true)
    | .failure e => (.error (authCatchMessage e), st, true)
  else
    (.error "Client ID and Client Secret are required for OAuth2 authentication",
     st, false)

/-- getAccessToken (src/api/auth.ts lines 43-85): a valid cached token is
reused with no network call and no state change; otherwise a new token is
requested. -/
def getAccessToken (cfg : AuthConfig) (st : AuthState) (now : Int)
    (net : GrantOutcome) : Except String String × AuthState × Bool :=
  if tokenValid st now then (.ok (st.accessToken.getD ""), st, false)
  else requestNewToken cfg st now net

/-- getAuthHeaders (src/api/auth.ts lines 24-41): a configured api key gives
the fixed v1 header set synchronously; otherwise the OAuth2 token is obtained
and a bearer header set is produced. -/
def getAuthHeaders (cfg : AuthConfig) (st : AuthState) (now : Int)
    (net : GrantOutcome) :
    Except String (List (String × String)) × AuthState × Bool :=
  if strOptTruthy cfg.apiKey then
    (.ok [("X-Personio-App-ID", cfg.apiKey.getD ""),
          ("Accept", "application/json"),
          ("Content-Type", "application/json")], st, false)
  else
    match getAccessToken cfg st now net with
    | (.ok tok, st2, used) =>
        (.ok [("Authorization", "Bearer " ++ tok),
              ("Accept", "application/json"),
              ("Content-Type", "application/json")], st2, used)
    | (.error m, st2, used) => (.error m, st2, used)

/-- Outcome of the upstream revocation request. -/
inductive RevokeOutcome where
  | success : RevokeOutcome
  | failure : JSVal → RevokeOutcome

/-- revokeToken (src/api/auth.ts lines 87-107): with no stored token it
returns immediately; with a token it posts a revocation request inside a
try-finally, so the finally block clears the token and its expiry on every
exit path, and a failing request still propagates its error after the
cleanup. Returns (outcome, state after, whether a request was issued). -/
def revokeToken (st : AuthState) (outcome : RevokeOutcome) :
    Except JSVal Unit × AuthState × Bool :=
  if strOptTruthy st.accessToken then
    match outcome with
    | .success => (.ok (), ⟨none, none⟩, true)
    | .failure e => (.error e, ⟨none, none⟩, true)
  else (.ok (), st, false)

/-- Phase of one logical caller inside getAccessToken, split at the await of
the grant request (src/api/auth.ts line 55): ready to run the synchronous
prefix, suspended on the network call, or finished. -/
inductive CallerPhase where
  | ready : CallerPhase
  | awaiting : CallerPhase
  | finished : CallerPhase
deriving DecidableEq, Repr

/-- The shared credential state plus the interleaved getAccessToken callers,
with counters of issued and currently in-flight grant requests. -/
structure FlightState where
  auth : AuthState
  callers : List CallerPhase
  grantRequests : Nat
  grantsInFlight : Nat
deriving DecidableEq, Repr

/-- One interleaving step of concurrent getAccessToken callers at a fixed
time (credentials configured): a ready caller runs the synchronous prefix —
if the shared token is valid it finishes reusing it, otherwise it issues a
grant request and suspends on the await; a suspended caller resumes on its
response, stores the served token into the shared state and finishes. The
code keeps no pending-acquisition handle, so nothing stops a second ready
caller from issuing its own request while the first is still in flight. -/
inductive FlightStep (now : Int) : FlightState → FlightState → Prop where
  | reuse (s : FlightState) (i : Nat) :
      s.callers.get? i = some .ready →
      tokenValid s.auth now = true →
      FlightStep now s { s with callers := s.callers.set i .finished }
  | issueGrant (s : FlightState) (i : Nat) :
      s.callers.get? i = some .ready →
      tokenValid s.auth now = false →
      FlightStep now s
        { s with callers := s.callers.set i .awaiting,
                 grantRequests := s.grantRequests + 1,
                 grantsInFlight := s.grantsInFlight + 1 }
  | receiveGrant (s : FlightState) (i : Nat) (tok : String) (expiresIn : Int) :
      s.callers.get? i = some .awaiting →
      FlightStep now s
        { auth := ⟨some tok, some (now + (expiresIn - 300) * 1000)⟩,
          callers := s.callers.set i .finished,
          grantRequests := s.grantRequests,
          grantsInFlight := s.grantsInFlight - 1 }

/-- Two callers, no cached token. -/
def flight0 : FlightState := ⟨⟨none, none⟩, [.ready, .ready], 0, 0⟩

/-- After the first caller issued its grant request and suspended. -/
def flight1 : FlightState := ⟨⟨none, none⟩, [.awaiting, .ready], 1, 1⟩

/-- After the second caller also issued a grant request: two requests are in
flight at once. -/
def flight2 : FlightState := ⟨⟨none, none⟩, [.awaiting, .awaiting], 2, 2⟩

/-- ThrottledExecutor configuration: concurrency cap, per-interval start cap
and the interval length in milliseconds. -/
structure ThrottleConfig where
  concurrencyCap : Nat
  intervalCap : Nat
  intervalMs : Nat
deriving DecidableEq, Repr

/-- The RateLimiter constructor (src/utils/rateLimiter.ts lines 8-18): the
queue is configured with concurrency = burstLimit (default 15), intervalCap =
requestsPerMinute (default 60), and a 60000 ms interval. -/
def rateLimiterConfig (requestsPerMinute burstLimit : Option Nat) :
    ThrottleConfig :=
  ⟨burstLimit.getD 15, requestsPerMinute.getD 60, 60000⟩

/-- Admission-control state of the executor: queued tasks in submission
order, tasks in flight, and tasks started in the current interval window. -/
structure ThrottleState where
  queued : List Nat
  inFlight : Nat
  startedInWindow : Nat
deriving DecidableEq, Repr

/-- Modelled from the spec: the admission semantics of the p-queue dependency
behind RateLimiter.execute are not in the repository source (only its
configuration is); spec section 4.2 fixes them — a submitted task is enqueued
FIFO and never rejected, a queued task starts only while both the concurrency
cap and the per-interval start cap have room, completion (success or failure
alike) releases one concurrency slot, and the window counter resets when the
interval rolls over. -/
inductive ThrottleStep (cfg : ThrottleConfig) :
    ThrottleState → ThrottleState → Prop where
  | submit (s : ThrottleState) (t : Nat) :
      ThrottleStep cfg s { s with queued := s.queued ++ [t] }
  | start (s : ThrottleState) (t : Nat) (rest : List Nat) :
      s.queued = t :: rest →
      s.inFlight < cfg.concurrencyCap →
      s.startedInWindow < cfg.intervalCap →
      ThrottleStep cfg s ⟨rest, s.inFlight + 1, s.startedInWindow + 1⟩
  | complete (s : ThrottleState) :
      0 < s.inFlight →
      ThrottleStep cfg s { s with inFlight := s.inFlight - 1 }
  | windowRollover (s : ThrottleState) :
      ThrottleStep cfg s { s with startedInWindow := 0 }

/-- The idle executor. -/
def throttleInit : ThrottleState := ⟨[], 0, 0⟩

/-- States the executor can reach from idle. -/
inductive ThrottleReachable (cfg : ThrottleConfig) : ThrottleState → Prop where
  | init : ThrottleReachable cfg throttleInit
  | step {s s2 : ThrottleState} :
      ThrottleReachable cfg s → ThrottleStep cfg s s2 → ThrottleReachable cfg s2

/-- The response body `{error: {message: "rate limited"}}`. -/
def rateLimitBody : JSVal :=
  .obj "Object" [("error", .obj "Object" [("message", .str "rate limited")])]

/-- An axios failure for an HTTP 429 response with the rate-limited body. -/
def axiosErr429 : JSVal :=
  .obj "AxiosError"
    [("message", .str "Request failed with status code 429"),
     ("response", .obj "Object" [("status", .num 429), ("data", rateLimitBody)])]

end Personio

namespace Personio

/-- On a truthy receiver a property read cannot raise and agrees with the
optional-chaining read. -/
theorem getField_ok_of_truthy (v : JSVal) (k : String) (h : truthy v = true) :
    getField v k = .ok (optField v k) := by
  cases v <;> simp_all [truthy, getField, optField]

/-- C7: the claim that formatError is total over every input fails on nullish
inputs: reading `error.response` from null or undefined raises a TypeError, and
on an input carrying a numeric `code` field the code of the returned descriptor is a
number and its message is undefined, not strings. -/
theorem C7_counterexample :
    formatError JSVal.null = .error (.typeError "response")
    ∧ formatError JSVal.undefined = .error (.typeError "response")
    ∧ formatError (.obj "Object" [("code", .num 5)]) =
        .ok ⟨.num 5, .undefined, none⟩ :=
  ⟨rfl, rfl, rfl⟩

/-- C7 (amended): for every input other than null and undefined, formatError
returns a descriptor and never raises; the descriptor fields are copied from
the input (or synthesized) and are therefore not forced to be strings. On null
and undefined it raises a TypeError. -/
theorem C7_amended (v : JSVal) (h1 : v ≠ .null) (h2 : v ≠ .undefined) :
    ∃ d, formatError v = .ok d := by
  match v with
  | .bool b => exact ⟨_, rfl⟩
  | .num n => exact ⟨_, rfl⟩
  | .str s => exact ⟨_, rfl⟩
  | .arr xs => exact ⟨_, rfl⟩
  | .obj c fs =>
    rw [formatError]
    by_cases hm : isPersonioMCPError (.obj c fs)
    · rw [if_pos hm]
      exact ⟨_, rfl⟩
    · rw [if_neg hm]
      show ∃ d, (Except.ok (lookupField fs "response") >>= _) = .ok d
      simp only [bind, Except.bind]
      by_cases hresp : truthy (lookupField fs "response")
      · rw [if_pos hresp, getField_ok_of_truthy _ "status" hresp,
           getField_ok_of_truthy _ "data" hresp]
        simp only [getField, bind, Except.bind]
        exact ⟨_, rfl⟩
      · rw [if_neg hresp]
        simp only [getField, bind, Except.bind]
        by_cases hc : truthy (lookupField fs "code")
        · rw [if_pos hc]; exact ⟨_, rfl⟩
        · rw [if_neg hc]; exact ⟨_, rfl⟩

/-- C7 witness: formatError applied at the concrete non-nullish input "boom"
yields a descriptor. -/
theorem C7_witness : ∃ d, formatError (.str "boom") = .ok d :=
  C7_amended (.str "boom") (by simp) (by simp)

/-- C6: the claim that the normalizer maps an HTTP 429 failure with body
{error:{message:"rate limited"}} to code HTTP_429 with message "rate limited"
fails: applied directly to the raw failure, formatError keeps the transport
own message (it reads `data?.message`, and the body nests its message under
`error`), and applied through the handleError interceptor (which is
how tool-call failures reach it) the resulting PersonioApiError carries no
`response` and no `code` field, so the code becomes UNKNOWN_ERROR. -/
theorem C6_counterexample :
    formatError axiosErr429 =
      .ok ⟨.str "HTTP_429", .str "Request failed with status code 429",
           some rateLimitBody⟩
    ∧ (handleError axiosErr429 >>= formatError) =
      .ok ⟨.str "UNKNOWN_ERROR", .str "rate limited", none⟩
    ∧ "Request failed with status code 429" ≠ "rate limited"
    ∧ "UNKNOWN_ERROR" ≠ "HTTP_429" :=
  ⟨rfl, rfl, by decide, by decide⟩

/-- C6 (amended): the full normalization pipeline (the client interceptor
handleError followed by formatError) maps the HTTP 429 failure with body
{error:{message:"rate limited"}} to code "UNKNOWN_ERROR" with message
"rate limited"; formatError applied directly to the raw failure yields code
"HTTP_429" but with the own message of the transport and the body as details. -/
theorem C6_amended :
    (handleError axiosErr429 >>= formatError) =
      .ok ⟨.str "UNKNOWN_ERROR", .str "rate limited", none⟩
    ∧ formatError axiosErr429 =
      .ok ⟨.str "HTTP_429", .str "Request failed with status code 429",
           some rateLimitBody⟩ :=
  ⟨rfl, rfl⟩

/-- C1: the claim that at most one token-acquisition call is ever in flight
fails on the code: getAccessToken keeps no single-flight guard (no shared
pending-acquisition handle), so from a state with no cached token two
interleaved callers both pass the synchronous validity check and both issue a
grant request before either response arrives — two grant requests issued, and
two in flight at the same instant. -/
theorem C1_no_single_flight :
    FlightStep 0 flight0 flight1 ∧ FlightStep 0 flight1 flight2 ∧
    flight2.grantRequests = 2 ∧ flight2.grantsInFlight = 2 := by
  refine ⟨?_, ?_, rfl, rfl⟩
  · exact FlightStep.issueGrant flight0 0 rfl rfl
  · exact FlightStep.issueGrant flight1 1 rfl rfl

/-- C3: in every state the executor can reach, the in-flight count stays
within the concurrency cap (burstLimit) and the per-window start count stays
within the interval cap (requestsPerMinute), while submission is always
enabled — a task beyond a cap is queued, never rejected. -/
theorem C3_caps (requestsPerMinute burstLimit : Option Nat) (s : ThrottleState)
    (h : ThrottleReachable (rateLimiterConfig requestsPerMinute burstLimit) s) :
    s.inFlight ≤ (rateLimiterConfig requestsPerMinute burstLimit).concurrencyCap
    ∧ s.startedInWindow ≤
        (rateLimiterConfig requestsPerMinute burstLimit).intervalCap
    ∧ ∀ t : Nat, ThrottleStep (rateLimiterConfig requestsPerMinute burstLimit) s
        { s with queued := s.queued ++ [t] } := by
  induction h with
  | init => exact ⟨Nat.zero_le _, Nat.zero_le _, fun t => .submit _ t⟩
  | step hr hs ih =>
      obtain ⟨ih1, ih2, _⟩ := ih
      cases hs with
      | submit t => exact ⟨ih1, ih2, fun t2 => .submit _ t2⟩
      | start t rest hq hc hw => exact ⟨hc, hw, fun t2 => .submit _ t2⟩
      | complete hpos =>
          exact ⟨le_trans (Nat.sub_le _ _) ih1, ih2, fun t2 => .submit _ t2⟩
      | windowRollover => exact ⟨ih1, Nat.zero_le _, fun t2 => .submit _ t2⟩

/-- C3 witness: the caps hold at the concrete reachable state of the idle
default-configured executor. -/
theorem C3_witness :
    throttleInit.inFlight ≤ (rateLimiterConfig none none).concurrencyCap
    ∧ throttleInit.startedInWindow ≤ (rateLimiterConfig none none).intervalCap
    ∧ ∀ t : Nat, ThrottleStep (rateLimiterConfig none none) throttleInit
        { throttleInit with queued := throttleInit.queued ++ [t] } :=
  C3_caps none none throttleInit ThrottleReachable.init

/-- Reading a key that was just deleted misses, whatever was stored before
and whenever the read happens. -/
theorem cacheGet_cacheDelete (c : Cache) (k : String) (t : Int) :
    cacheGet (cacheDelete c k) k t = none := by
  induction c with
  | nil => rfl
  | cons e rest ih =>
      by_cases h : e.key = k
      · simp [cacheDelete, List.filter, h] at ih ⊢
        exact ih
      · simp only [cacheDelete, List.filter] at ih ⊢
        have hb : (e.key != k) = true := by simp [h]
        rw [hb]
        simp only [cacheGet, List.find?] at ih ⊢
        have hb2 : (e.key == k) = false := by simp [h]
        rw [hb2]
        exact ih

/-- C4: with client credentials configured (no api key), getAuthHeaders reuses
the stored token whenever one is present and now is strictly before its
expiry, issuing no network call and leaving the state unchanged; otherwise it
issues the grant, stores the served token, and sets the expiry to the issue
time plus (expires_in - 300) seconds — for expires_in = 3600 the stored
expiry is exactly 3300 seconds after issuance. -/
theorem C4_token_lifecycle :
    (∀ (cfg : AuthConfig) (st : AuthState) (now : Int) (net : GrantOutcome)
       (tok : String) (exp : Int),
       cfg.apiKey = none → st.accessToken = some tok → tok ≠ "" →
       st.tokenExpiry = some exp → now < exp →
       getAuthHeaders cfg st now net =
         (.ok [("Authorization", "Bearer " ++ tok),
               ("Accept", "application/json"),
               ("Content-Type", "application/json")], st, false))
    ∧ (∀ (cfg : AuthConfig) (st : AuthState) (now : Int) (r : TokenResponse)
         (tok : String),
       cfg.apiKey = none →
       strOptTruthy cfg.clientId = true → strOptTruthy cfg.clientSecret = true →
       tokenValid st now = false → r.success = true → r.token = some tok →
       tok ≠ "" →
       getAuthHeaders cfg st now (.response r) =
         (.ok [("Authorization", "Bearer " ++ tok),
               ("Accept", "application/json"),
               ("Content-Type", "application/json")],
          ⟨some tok, some (now + (r.expires_in - 300) * 1000)⟩, true))
    ∧ (∀ (cfg : AuthConfig) (st : AuthState) (now : Int) (r : TokenResponse)
         (tok : String),
       strOptTruthy cfg.clientId = true → strOptTruthy cfg.clientSecret = true →
       tokenValid st now = false → r.success = true → r.token = some tok →
       tok ≠ "" → r.expires_in = 3600 →
       (getAccessToken cfg st now (.response r)).2.1.tokenExpiry =
         some (now + 3300 * 1000)) := by
  refine ⟨?_, ?_, ?_⟩
  · intro cfg st now net tok exp hk ht htne he hlt
    have hv : tokenValid st now = true := by
      simp [tokenValid, strOptTruthy, ht, he, hlt, htne]
    simp [getAuthHeaders, hk, strOptTruthy, getAccessToken, hv, ht, htne]
  · intro cfg st now r tok hk hc1 hc2 hv hs htok htne
    simp only [strOptTruthy] at hc1 hc2
    simp [getAuthHeaders, hk, strOptTruthy, getAccessToken, hv,
          requestNewToken, hc1, hc2, hs, htok, htne]
  · intro cfg st now r tok hc1 hc2 hv hs htok htne hexp
    simp only [strOptTruthy] at hc1 hc2
    simp [getAccessToken, hv, requestNewToken, strOptTruthy, hc1, hc2, hs,
          htok, htne, hexp]

/-- C4 witness: concrete instances of the three parts — reuse of a valid
cached token with no state change, a refresh storing the served token, and
the 3300-second expiry for expires_in = 3600. -/
theorem C4_witness :
    getAuthHeaders ⟨some "id", some "secret", none⟩ ⟨some "tok", some 1000⟩ 0
        (.failure .null) =
      (.ok [("Authorization", "Bearer " ++ "tok"),
            ("Accept", "application/json"),
            ("Content-Type", "application/json")],
       ⟨some "tok", some 1000⟩, false)
    ∧ getAuthHeaders ⟨some "id", some "secret", none⟩ ⟨none, none⟩ 0
        (.response ⟨true, some "newtok", 3600⟩) =
      (.ok [("Authorization", "Bearer " ++ "newtok"),
            ("Accept", "application/json"),
            ("Content-Type", "application/json")],
       ⟨some "newtok",
        some ((0 : Int) + ((⟨true, some "newtok", 3600⟩ : TokenResponse).expires_in
          - 300) * 1000)⟩, true)
    ∧ (getAccessToken ⟨some "id", some "secret", none⟩ ⟨none, none⟩ 0
        (.response ⟨true, some "newtok", 3600⟩)).2.1.tokenExpiry =
      some ((0 : Int) + 3300 * 1000) :=
  ⟨C4_token_lifecycle.1 _ _ 0 _ "tok" 1000 rfl rfl (by decide) rfl (by decide),
   C4_token_lifecycle.2.1 _ _ 0 _ "newtok" rfl (by decide) (by decide) (by decide)
     rfl rfl (by decide),
   C4_token_lifecycle.2.2 _ _ 0 _ "newtok" (by decide) (by decide) (by decide)
     rfl rfl (by decide) rfl⟩

/-- C5: after a successful create_absence_request the unparameterized
absences list key (which is the string absences:{}) is deleted, so a get of
that key at any later instant misses even when a set on it previously
succeeded and its TTL has not elapsed. -/
theorem C5_create_invalidates (cfg : CacheConfig) (c : Cache)
    (args v a : JSVal) (ttl : Option Int) (now t2 : Int)
    (p : CreateAbsenceParams) (hp : parseCreateAbsence args = .ok p) :
    getAbsencesKey .undefined = "absences:\x7b\x7d"
    ∧ cacheGet (createAbsence args (.ok a)
        (cacheSet cfg c "absences:\x7b\x7d" v ttl now)).2 "absences:\x7b\x7d" t2 = none := by
  refine ⟨by decide, ?_⟩
  unfold createAbsence
  rw [hp]
  have hkey : getAbsencesKey .undefined = "absences:\x7b\x7d" := by decide
  simp only [hkey]
  exact cacheGet_cacheDelete _ _ _

/-- C5 witness: a concrete valid create_absence_request run against a cache
holding a fresh absences:{} entry leaves that key absent. -/
theorem C5_witness :
    getAbsencesKey .undefined = "absences:\x7b\x7d"
    ∧ cacheGet (createAbsence
        (.obj "Object" [("employee_id", .num 1), ("time_off_type_id", .num 2),
                        ("start_date", .str "2024-01-01"),
                        ("end_date", .str "2024-01-02")])
        (.ok (.obj "Object" []))
        (cacheSet (mkCacheConfig none none none) [] "absences:\x7b\x7d"
          (.str "cached-list") (some 600) 0)).2 "absences:\x7b\x7d" 1000 = none :=
  C5_create_invalidates (mkCacheConfig none none none) [] _ _ _ (some 600) 0 1000
    ⟨1, 2, "2024-01-01", "2024-01-02", false, false, none⟩ rfl

/-- C8: whatever the outcome of the revocation request (success or a thrown
failure), revokeToken leaves the credential state with no token and no expiry
and has issued the request, because the cleanup sits in a finally block. -/
theorem C8_revoke_clears (st : AuthState) (outcome : RevokeOutcome)
    (h : strOptTruthy st.accessToken = true) :
    (revokeToken st outcome).2.1 = ⟨none, none⟩
    ∧ (revokeToken st outcome).2.2 = true := by
  unfold revokeToken
  rw [if_pos h]
  cases outcome <;> exact ⟨rfl, rfl⟩

/-- C8 witness: a failing revocation call still clears the concrete stored
token and expiry. -/
theorem C8_witness :
    (revokeToken ⟨some "tok", some 99⟩ (.failure (.str "boom"))).2.1 =
      ⟨none, none⟩
    ∧ (revokeToken ⟨some "tok", some 99⟩ (.failure (.str "boom"))).2.2 = true :=
  C8_revoke_clears _ _ (by decide)

/-- C10: with no stored access token, revokeToken returns immediately: no
revocation request is issued and the credential state is returned unchanged. -/
theorem C10_revoke_noop (st : AuthState) (outcome : RevokeOutcome)
    (h : st.accessToken = none) :
    revokeToken st outcome = (.ok (), st, false) := by
  unfold revokeToken
  rw [h]
  rfl

/-- C10 witness: revoking on a concrete token-free state (even one with a
stale expiry) is a no-op. -/
theorem C10_witness :
    revokeToken ⟨none, some 5⟩ (.failure (.str "x")) =
      (.ok (), ⟨none, some 5⟩, false) :=
  C10_revoke_noop ⟨none, some 5⟩ _ rfl

/-- C9: for a list_absences call whose validated parameters carry a status
filter, the cache after the call equals the cache before it, on the hit, the
miss and the upstream-failure paths alike; a write-back happens only when no
status filter is present (and then exactly the transformed result is written
under the derived key with a 60 second TTL). -/
theorem C9_status_not_cached (cfg : CacheConfig) (args : JSVal)
    (outcome : Except JSVal (List JSVal)) (c : Cache) (now : Int)
    (p : AbsenceParams) (hp : parseListAbsences args = .ok p) :
    (p.status.isSome → (listAbsences cfg args outcome c now).2 = c)
    ∧ (p.status = none →
       ∀ fetched, outcome = .ok fetched →
       truthy ((cacheGet c (getAbsencesKey (absenceParamsToJS p)) now).getD
         .undefined) = false →
       ∃ result,
         listAbsences cfg args outcome c now =
           (.ok result,
            cacheSet cfg c (getAbsencesKey (absenceParamsToJS p)) result
              (some 60) now)) := by
  constructor
  · intro hs
    unfold listAbsences
    rw [hp]
    by_cases hc :
      truthy ((cacheGet c (getAbsencesKey (absenceParamsToJS p)) now).getD .undefined)
    · simp [hc]
    · simp only [hc]
      cases outcome with
      | error e => simp
      | ok fetched =>
          have : p.status ≠ none := by
            cases hst : p.status with
            | none => rw [hst] at hs; simp at hs
            | some s => simp
          simp [this]
  · intro hn fetched ho hmiss
    unfold listAbsences
    rw [hp, ho]
    simp [hmiss, hn]

/-- C9 witness: a concrete call with a status filter against the empty cache
leaves the cache empty. -/
theorem C9_witness :
    ((⟨none, none, none, some "approved", 50, 0⟩ : AbsenceParams).status.isSome →
      (listAbsences (mkCacheConfig none none none)
        (.obj "Object" [("status", .str "approved")])
        (.ok []) [] 0).2 = [])
    ∧ ((⟨none, none, none, some "approved", 50, 0⟩ : AbsenceParams).status = none →
       ∀ fetched, (.ok [] : Except JSVal (List JSVal)) = .ok fetched →
       truthy ((cacheGet [] (getAbsencesKey (absenceParamsToJS
           ⟨none, none, none, some "approved", 50, 0⟩)) 0).getD .undefined) = false →
       ∃ result,
         listAbsences (mkCacheConfig none none none)
           (.obj "Object" [("status", .str "approved")]) (.ok []) [] 0 =
           (.ok result,
            cacheSet (mkCacheConfig none none none) []
              (getAbsencesKey (absenceParamsToJS
                ⟨none, none, none, some "approved", 50, 0⟩)) result (some 60) 0)) :=
  C9_status_not_cached (mkCacheConfig none none none)
    (.obj "Object" [("status", .str "approved")]) (.ok []) [] 0
    ⟨none, none, none, some "approved", 50, 0⟩ rfl

/-- Lookup in an association list with distinct keys is invariant under
permutation. -/
theorem lookup_perm (k : String) :
    ∀ {l1 l2 : List (String × JSVal)}, l1.Perm l2 →
      (l1.map Prod.fst).Nodup → l1.lookup k = l2.lookup k := by
  intro l1 l2 p
  induction p with
  | nil => intro _; rfl
  | cons x p ih =>
      intro nd
      obtain ⟨a, v⟩ := x
      have nd2 := (List.nodup_cons.mp nd).2
      simp only [List.lookup]
      cases h : k == a with
      | true => rfl
      | false => exact ih nd2
  | swap x y l =>
      intro nd
      obtain ⟨a, v⟩ := x
      obtain ⟨b, w⟩ := y
      have hne : b ≠ a := by
        have := (List.nodup_cons.mp nd).1
        simp only [List.map, List.mem_cons] at this
        intro h2
        exact this (Or.inl h2)
      simp only [List.lookup]
      cases hb : k == b with
      | true =>
          cases ha : k == a with
          | true =>
              exfalso
              exact hne ((eq_of_beq hb).symm.trans (eq_of_beq ha))
          | false => rfl
      | false =>
          cases ha : k == a with
          | true => rfl
          | false => rfl
  | trans p1 p2 ih1 ih2 =>
      intro nd
      have nd2 : _ := ((p1.map Prod.fst).nodup_iff).mp nd
      exact (ih1 nd).trans (ih2 nd2)

/-- C2: the claim that the derived cache key is invariant under reordering of
parameter fields fails on the raw key generators: JSON.stringify serializes
fields in insertion order, so the same fields in a different order give a
different key, for absences and employees keys alike. -/
theorem C2_counterexample :
    getAbsencesKey (.obj "Object" [("start_date", .str "2024-01-01"),
                                   ("status", .str "approved")]) ≠
      getAbsencesKey (.obj "Object" [("status", .str "approved"),
                                     ("start_date", .str "2024-01-01")])
    ∧ getEmployeesKey (.obj "Object" [("limit", .num 10), ("offset", .num 0)]) ≠
      getEmployeesKey (.obj "Object" [("offset", .num 0), ("limit", .num 10)]) := by
  constructor <;> decide

/-- C2 (amended): the raw key derivation is insertion-order-sensitive, but
both operations (list_absences via getAbsencesKey and list_employees via
getEmployeesKey) derive their keys from the schema-parsed parameters, and the
parse reads each field by name and emits the fields in fixed schema order —
so two argument objects with the same fields and values in different orders
(keys distinct, as in any JavaScript object) parse identically and derive the
identical cache key. -/
theorem C2_amended (a1 a2 : List (String × JSVal)) (hperm : a1.Perm a2)
    (hnd : (a1.map Prod.fst).Nodup) :
    parseListAbsences (.obj "Object" a1) = parseListAbsences (.obj "Object" a2)
    ∧ (parseListAbsences (.obj "Object" a1)).map
        (fun p => getAbsencesKey (absenceParamsToJS p)) =
      (parseListAbsences (.obj "Object" a2)).map
        (fun p => getAbsencesKey (absenceParamsToJS p))
    ∧ parseListEmployees (.obj "Object" a1)
        = parseListEmployees (.obj "Object" a2)
    ∧ (parseListEmployees (.obj "Object" a1)).map
        (fun p => getEmployeesKey (employeeParamsToJS p)) =
      (parseListEmployees (.obj "Object" a2)).map
        (fun p => getEmployeesKey (employeeParamsToJS p)) := by
  have h : ∀ k, lookupField a1 k = lookupField a2 k := by
    intro k
    unfold lookupField
    rw [lookup_perm k hperm hnd]
  have hparse : parseListAbsences (.obj "Object" a1)
      = parseListAbsences (.obj "Object" a2) := by
    simp only [parseListAbsences, h]
  have hparse2 : parseListEmployees (.obj "Object" a1)
      = parseListEmployees (.obj "Object" a2) := by
    simp only [parseListEmployees, h]
  exact ⟨hparse, by rw [hparse], hparse2, by rw [hparse2]⟩

/-- C2 witness: concrete argument objects with the same two fields in the two
orders parse to the same parameters and derive the same key, for the absences
and the employees operation alike. -/
theorem C2_amended_witness :
    parseListAbsences (.obj "Object"
        [("status", .str "pending"), ("limit", .num 10)])
      = parseListAbsences (.obj "Object"
        [("limit", .num 10), ("status", .str "pending")])
    ∧ (parseListAbsences (.obj "Object"
        [("status", .str "pending"), ("limit", .num 10)])).map
        (fun p => getAbsencesKey (absenceParamsToJS p)) =
      (parseListAbsences (.obj "Object"
        [("limit", .num 10), ("status", .str "pending")])).map
        (fun p => getAbsencesKey (absenceParamsToJS p))
    ∧ parseListEmployees (.obj "Object"
        [("status", .str "pending"), ("limit", .num 10)])
      = parseListEmployees (.obj "Object"
        [("limit", .num 10), ("status", .str "pending")])
    ∧ (parseListEmployees (.obj "Object"
        [("status", .str "pending"), ("limit", .num 10)])).map
        (fun p => getEmployeesKey (employeeParamsToJS p)) =
      (parseListEmployees (.obj "Object"
        [("limit", .num 10), ("status", .str "pending")])).map
        (fun p => getEmployeesKey (employeeParamsToJS p)) :=
  C2_amended _ _ (List.Perm.swap _ _ _) (by decide)

end Personio
